import Mathlib

/-!
Shallow embedding of `esp32_crazyflie_connection_monitor.py`.

The script's `ConnectionMonitor` class holds a link handle (`self.crazyflie`),
a serial handle (`self.esp32_serial`), a status dictionary with three boolean
entries (`crazyflie_connected`, `esp32_connected`, `communication_active`) and
a `monitoring` flag.  Handles are modelled as `Option Unit` (present or not),
the status dictionary is flattened into boolean fields, and every external
I/O call (serial open/write/read, link parameter read-back scheduling, close)
is given its outcome by an explicit `Except String _` argument, so that the
exception paths of the Python `try`/`except` blocks become ordinary case
analysis.  Each operation returns the successor state together with a trace of
observable effects (log lines, serial writes/reads, scheduled parameter
read-backs, close attempts), mirroring the Python statements in order.
-/

/-- Observable effects of one operation of the monitor, in program order. -/
inductive Effect where
  | logInfo (msg : String)
  | logWarning (msg : String)
  | logError (msg : String)
  | serialWrite (data : String)
  | serialRead
  | paramReadback (name : String)
  | sleepSec (n : Nat)
  | closeLinkAttempt
  | closeSerialAttempt
deriving DecidableEq, Repr

/-- The mutable state of a `ConnectionMonitor` instance: the two peripheral
handles, the three status booleans and the `monitoring` flag. -/
structure MonitorState where
  crazyflie : Option Unit
  esp32_serial : Option Unit
  crazyflie_connected : Bool
  esp32_connected : Bool
  communication_active : Bool
  monitoring : Bool
deriving DecidableEq, Repr

/-- `ConnectionMonitor.__init__`: no handles, all status fields false. -/
def initialState : MonitorState :=
  { crazyflie := none
    esp32_serial := none
    crazyflie_connected := false
    esp32_connected := false
    communication_active := false
    monitoring := false }

/-- Whether a trace contains a write to the serial peripheral. -/
def writesSerial (tr : List Effect) : Bool :=
  tr.any (fun e => match e with | Effect.serialWrite _ => true | _ => false)

/-- Whether a trace contains a read from the serial peripheral. -/
def readsSerial (tr : List Effect) : Bool :=
  tr.any (fun e => match e with | Effect.serialRead => true | _ => false)

/-- Number of scheduled link parameter read-backs in a trace. -/
def countParamReadbacks (tr : List Effect) : Nat :=
  (tr.filter (fun e => match e with | Effect.paramReadback _ => true | _ => false)).length

/-- Number of error- or warning-level log lines in a trace. -/
def errorLogCount (tr : List Effect) : Nat :=
  (tr.filter (fun e => match e with
    | Effect.logError _ => true
    | Effect.logWarning _ => true
    | _ => false)).length

/-- Projection of a trace to its peripheral close attempts, keeping order. -/
def closeAttempts (tr : List Effect) : List Effect :=
  tr.filter (fun e => match e with
    | Effect.closeLinkAttempt => true
    | Effect.closeSerialAttempt => true
    | _ => false)

/-- `sub` is a leading segment of `l`, on character lists. -/
def listPrefixCh : List Char → List Char → Bool
  | [], _ => true
  | _ :: _, [] => false
  | a :: as, b :: bs => a == b && listPrefixCh as bs

/-- `sub` occurs contiguously somewhere in `l`, on character lists. -/
def listSubCh : List Char → List Char → Bool
  | sub, [] => listPrefixCh sub []
  | sub, c :: cs => listPrefixCh sub (c :: cs) || listSubCh sub cs

/-- Python's `sub in hay` substring test on strings. -/
def strContains (hay sub : String) : Bool :=
  listSubCh sub.toList hay.toList

/-- Python's `str.lower()`, character-wise case folding. -/
def strToLower (s : String) : String :=
  String.mk (s.toList.map Char.toLower)

/-- A serial port as enumerated by `serial.tools.list_ports.comports()`:
a device name and a human-readable description. -/
structure Port where
  device : String
  description : String
deriving DecidableEq, Repr

/-- The fixed keyword set of `scan_esp32_ports`. -/
def esp32Keywords : List String := ["esp32", "xiao", "ch340", "cp210"]

/-- `ConnectionMonitor.initialize_crazyflie_drivers`: returns the scan result
as-is, or the empty list when the driver initialisation or scan raises.
Endpoints are (uri, description) pairs as returned by the driver scan. -/
def initialize_crazyflie_drivers (scanResult : Except String (List (String × String))) :
    List (String × String) :=
  match scanResult with
  | Except.ok available => available
  | Except.error _ => []

/-- `ConnectionMonitor.scan_esp32_ports`: keeps the devices of those ports
whose lowered description contains one of the fixed keywords; the empty list
when the enumeration raises. -/
def scan_esp32_ports (comports : Except String (List Port)) : List String :=
  match comports with
  | Except.error _ => []
  | Except.ok ports =>
      (ports.filter (fun p =>
        esp32Keywords.any (fun k => strContains (strToLower p.description) k))).map Port.device

/-- `ConnectionMonitor._crazyflie_connected`: sets the status flag, then —
only when `self.crazyflie` is non-null — schedules the firmware-revision and
battery-voltage read-backs inside a `try` whose `except` logs a warning.
`fwRead` and `vbatRead` give the outcomes of the two `param.get_value`
scheduling calls. -/
def crazyflie_connected_cb (st : MonitorState) (fwRead vbatRead : Except String Unit) :
    MonitorState × List Effect :=
  let st1 : MonitorState := { st with crazyflie_connected := true }
  let intro := Effect.logInfo "Crazyflie connected"
  match st1.crazyflie with
  | none => (st1, [intro])
  | some _ =>
    match fwRead with
    | Except.error e =>
        (st1, [intro, Effect.logWarning ("Could not read Crazyflie parameters: " ++ e)])
    | Except.ok _ =>
      match vbatRead with
      | Except.error e =>
          (st1, [intro, Effect.paramReadback "firmware.revision0",
                 Effect.logWarning ("Could not read Crazyflie parameters: " ++ e)])
      | Except.ok _ =>
          (st1, [intro, Effect.paramReadback "firmware.revision0",
                 Effect.paramReadback "pm.vbat"])

/-- `ConnectionMonitor._crazyflie_disconnected`: logs and clears the flag. -/
def crazyflie_disconnected_cb (st : MonitorState) : MonitorState × List Effect :=
  ({ st with crazyflie_connected := false },
   [Effect.logWarning "Crazyflie disconnected"])

/-- `ConnectionMonitor._crazyflie_connection_failed`: logs and clears the flag. -/
def crazyflie_connection_failed_cb (st : MonitorState) : MonitorState × List Effect :=
  ({ st with crazyflie_connected := false },
   [Effect.logError "Crazyflie connection failed"])

/-- Claim C9 theorem: the disconnect handler leaves `crazyflie_connected` false,
and firing it twice from any starting state leaves the flag false after each
firing; the second firing does not change the state at all (idempotence). -/
theorem crazyflie_disconnected_cb_idempotent (st : MonitorState) :
    (crazyflie_disconnected_cb st).1.crazyflie_connected = false ∧
    (crazyflie_disconnected_cb (crazyflie_disconnected_cb st).1).1.crazyflie_connected = false ∧
    (crazyflie_disconnected_cb (crazyflie_disconnected_cb st).1).1 =
      (crazyflie_disconnected_cb st).1 :=
  ⟨rfl, rfl, rfl⟩

/-- The `connect_to_crazyflie` wait loop polls every 0.1 s against a 10 s
timeout, so the loop body runs at most 100 ticks of 100 ms each. -/
def connectTimeoutTicks : Nat := 100

/-- The value of `connection_status['crazyflie_connected']` at poll tick `t`,
when the link library delivers the connected notification at tick `arrival`
(`none` when it never arrives): once the notification has fired, the flag is
whatever `_crazyflie_connected` wrote; before that it is unchanged. -/
def flagDuring (st : MonitorState) (arrival : Option Nat) (t : Nat) : Bool :=
  match arrival with
  | none => st.crazyflie_connected
  | some a =>
      if a ≤ t then
        (crazyflie_connected_cb st (Except.ok ()) (Except.ok ())).1.crazyflie_connected
      else st.crazyflie_connected

/-- The Python `while not flag and elapsed < timeout: sleep(0.1)` loop:
starting at tick `t` with `fuel` ticks of budget left, returns the tick at
which the loop exits (flag observed true, or budget exhausted). -/
def pollFrom (st : MonitorState) (arrival : Option Nat) : Nat → Nat → Nat
  | t, 0 => t
  | t, Nat.succ fuel => if flagDuring st arrival t then t else pollFrom st arrival (t + 1) fuel

/-- `ConnectionMonitor.connect_to_crazyflie`: registers the callbacks, opens
the link (outcome `openResult`; an exception is caught and yields `false`),
then polls the connected flag every 100 ms up to the 10 s timeout.  On
success the handle is stored and `true` returned; on timeout the state is
left as it was and `false` returned. -/
def connect_to_crazyflie (st : MonitorState) (openResult : Except String Unit)
    (arrival : Option Nat) : MonitorState × Bool :=
  match openResult with
  | Except.error _ => (st, false)
  | Except.ok _ =>
    let texit := pollFrom st arrival 0 connectTimeoutTicks
    if flagDuring st arrival texit then
      ({ st with crazyflie_connected := true, crazyflie := some () }, true)
    else (st, false)

/-- Outcomes of the three external serial calls made by `connect_to_esp32`:
the `serial.Serial(...)` constructor, the `write(b"PING\n")` probe and the
`readline().decode().strip()` reply (its string when no exception). -/
structure SerialProbeEnv where
  openResult : Except String Unit
  writeResult : Except String Unit
  readResult : Except String String
deriving Repr

/-- `ConnectionMonitor.connect_to_esp32`: stores the handle as soon as the
port opens, probes with `PING`, and marks the peripheral connected and
returns `true` for any probe reply, empty or not; any exception inside the
`try` is caught, logged, and yields `false` — note the handle assignment has
already happened by then. -/
def connect_to_esp32 (st : MonitorState) (env : SerialProbeEnv) :
    MonitorState × List Effect × Bool :=
  match env.openResult with
  | Except.error e =>
      (st, [Effect.logError ("Failed to connect to ESP32: " ++ e)], false)
  | Except.ok _ =>
    let st1 : MonitorState := { st with esp32_serial := some () }
    match env.writeResult with
    | Except.error e =>
        (st1, [Effect.serialWrite "PING\n",
               Effect.logError ("Failed to connect to ESP32: " ++ e)], false)
    | Except.ok _ =>
      match env.readResult with
      | Except.error e =>
          (st1, [Effect.serialWrite "PING\n", Effect.serialRead,
                 Effect.logError ("Failed to connect to ESP32: " ++ e)], false)
      | Except.ok response =>
        if response = "" then
          ({ st1 with esp32_connected := true },
           [Effect.serialWrite "PING\n", Effect.serialRead,
            Effect.logWarning "ESP32 connected but no response to ping"], true)
        else
          ({ st1 with esp32_connected := true },
           [Effect.serialWrite "PING\n", Effect.serialRead,
            Effect.logInfo ("ESP32 responded: " ++ response)], true)

/-- Result of `send_esp32_command` as the spec abstracts it: `ok` when the
command was written, `rejected` when the guard failed or the write raised. -/
inductive SendOutcome where
  | ok
  | rejected
deriving DecidableEq, Repr

/-- `ConnectionMonitor.send_esp32_command`: guarded by
`self.esp32_serial and self.connection_status['esp32_connected']`; inside the
guard it writes the command plus a newline, catching and logging a write
error; outside the guard it only logs `ESP32 not connected`. -/
def send_esp32_command (st : MonitorState) (writeResult : Except String Unit)
    (command : String) : MonitorState × List Effect × SendOutcome :=
  if st.esp32_serial.isSome && st.esp32_connected then
    match writeResult with
    | Except.ok _ =>
        (st, [Effect.serialWrite (command ++ "\n"),
              Effect.logInfo ("Sent command to ESP32: " ++ command)], SendOutcome.ok)
    | Except.error e =>
        (st, [Effect.serialWrite (command ++ "\n"),
              Effect.logError ("Failed to send command to ESP32: " ++ e)],
         SendOutcome.rejected)
  else
    (st, [Effect.logError "ESP32 not connected"], SendOutcome.rejected)

/-- `ConnectionMonitor.test_power_connection`: after the two status-flag
guards, writes `POWER_TEST` when a serial handle exists, sleeps one second
and schedules a battery-voltage read-back when a link handle exists; an
exception from the write (`writeResult`) or from the read-back scheduling
(`readbackResult`) is caught and logged. -/
def test_power_connection (st : MonitorState) (writeResult readbackResult : Except String Unit) :
    MonitorState × List Effect × Bool :=
  let intro := Effect.logInfo "Testing power connection..."
  if st.crazyflie_connected = false then
    (st, [intro, Effect.logError "Cannot test power connection - Crazyflie not connected"],
     false)
  else if st.esp32_connected = false then
    (st, [intro, Effect.logError "Cannot test power connection - ESP32 not connected"],
     false)
  else
    match st.esp32_serial with
    | none => (st, [intro, Effect.logInfo "Testing power draw..."], true)
    | some _ =>
      match writeResult with
      | Except.error e =>
          (st, [intro, Effect.logInfo "Testing power draw...",
                Effect.serialWrite "POWER_TEST\n",
                Effect.logError ("Power test failed: " ++ e)], false)
      | Except.ok _ =>
        match st.crazyflie with
        | none =>
            (st, [intro, Effect.logInfo "Testing power draw...",
                  Effect.serialWrite "POWER_TEST\n", Effect.sleepSec 1], true)
        | some _ =>
          match readbackResult with
          | Except.error e =>
              (st, [intro, Effect.logInfo "Testing power draw...",
                    Effect.serialWrite "POWER_TEST\n", Effect.sleepSec 1,
                    Effect.logError ("Power test failed: " ++ e)], false)
          | Except.ok _ =>
              (st, [intro, Effect.logInfo "Testing power draw...",
                    Effect.serialWrite "POWER_TEST\n", Effect.sleepSec 1,
                    Effect.paramReadback "pm.vbat"], true)

/-- One iteration of `ConnectionMonitor.monitor_connections`: log the status
summary, then — gated only on the serial handle being present and bytes
waiting, not on `esp32_connected` — read one line (outcome `readResult`,
read errors logged as warnings), and sleep 2 s. -/
def monitor_connections_step (st : MonitorState) (in_waiting : Bool)
    (readResult : Except String String) : List Effect :=
  let statusLine := Effect.logInfo ("Status: " ++
    (if st.crazyflie_connected then "Crazyflie: yes" else "Crazyflie: no") ++ " | " ++
    (if st.esp32_connected then "ESP32: yes" else "ESP32: no"))
  let serialPart :=
    if st.esp32_serial.isSome && in_waiting then
      match readResult with
      | Except.ok d =>
          if d = "" then [Effect.serialRead]
          else [Effect.serialRead, Effect.logInfo ("ESP32 data: " ++ d)]
      | Except.error e =>
          [Effect.serialRead, Effect.logWarning ("Error reading ESP32 data: " ++ e)]
    else []
  statusLine :: serialPart ++ [Effect.sleepSec 2]

/-- `ConnectionMonitor.cleanup`: clears `monitoring`, then attempts to close
the link handle (if any) and afterwards the serial handle (if any), each
inside its own `try` whose bare `except: pass` swallows a close error
without logging anything. -/
def cleanup (st : MonitorState) (closeLinkRes closeSerialRes : Except String Unit) :
    MonitorState × List Effect :=
  let st1 : MonitorState := { st with monitoring := false }
  let linkPart :=
    match st1.crazyflie with
    | none => []
    | some _ =>
      match closeLinkRes with
      | Except.ok _ => [Effect.closeLinkAttempt, Effect.logInfo "Crazyflie connection closed"]
      | Except.error _ => [Effect.closeLinkAttempt]
  let serialPart :=
    match st1.esp32_serial with
    | none => []
    | some _ =>
      match closeSerialRes with
      | Except.ok _ =>
          [Effect.closeSerialAttempt, Effect.logInfo "ESP32 serial connection closed"]
      | Except.error _ => [Effect.closeSerialAttempt]
  (st1, Effect.logInfo "Cleaning up connections..." :: linkPart ++ serialPart)

/-- All external outcomes `main` depends on: the driver scan, the serial port
enumeration, the link open call, the tick at which the connected notification
arrives, and the serial probe outcomes. -/
structure MainEnv where
  scanLink : Except String (List (String × String))
  comports : Except String (List Port)
  linkOpen : Except String Unit
  arrival : Option Nat
  probe : SerialProbeEnv
deriving Repr

/-- The coarse control-flow events of `main`, in program order. -/
inductive MainEvent where
  | reportedNoLink
  | reportedNoSerial
  | attemptedLinkConnect
  | attemptedSerialConnect
  | startedMonitorLoop
  | enteredCommandLoop
  | ranCleanup
deriving DecidableEq, Repr

/-- The `main` function's control flow: scan both peripherals; with no link
endpoints it reports the failure and returns (only the `finally` cleanup
runs); otherwise it warns on missing serial ports, attempts the link connect
(returning on failure), attempts the serial connect when ports were found,
starts the monitoring thread and enters the interactive command loop. -/
def main_run (env : MainEnv) : List MainEvent :=
  let devices := initialize_crazyflie_drivers env.scanLink
  let ports := scan_esp32_ports env.comports
  if devices.isEmpty then [MainEvent.reportedNoLink, MainEvent.ranCleanup]
  else
    let warnSerial := if ports.isEmpty then [MainEvent.reportedNoSerial] else []
    if (connect_to_crazyflie initialState env.linkOpen env.arrival).2 = false then
      warnSerial ++ [MainEvent.attemptedLinkConnect, MainEvent.ranCleanup]
    else
      let serialEvents := if ports.isEmpty then [] else [MainEvent.attemptedSerialConnect]
      warnSerial ++ [MainEvent.attemptedLinkConnect] ++ serialEvents ++
        [MainEvent.startedMonitorLoop, MainEvent.enteredCommandLoop, MainEvent.ranCleanup]

/-- Helper: one monitor iteration reads from the serial port whenever the
handle is present and bytes are waiting, whatever the read outcome and the
status flags. -/
theorem monitor_step_reads_when_handle (st : MonitorState) (h : st.esp32_serial = some ())
    (rr : Except String String) :
    readsSerial (monitor_connections_step st true rr) = true := by
  cases rr with
  | ok d =>
      by_cases hd : d = "" <;>
        simp [monitor_connections_step, readsSerial, h, hd]
  | error e => simp [monitor_connections_step, readsSerial, h]

/-- Claim C1 counterexample: with a stored serial handle but
`esp32_connected = false` (a state reachable when the liveness probe raised
after the port opened), `send_esp32_command` writes nothing and rejects, so
an open handle alone does not make the command go through as claimed. -/
theorem send_esp32_command_counterexample :
    (send_esp32_command { initialState with esp32_serial := some () }
        (Except.ok ()) "POWER_TEST").2.2 ≠ SendOutcome.ok ∧
    writesSerial ((send_esp32_command { initialState with esp32_serial := some () }
        (Except.ok ()) "POWER_TEST").2.1) = false :=
  ⟨by decide, by decide⟩

/-- Claim C1 theorem (amended): `send_esp32_command` rejects and performs no
serial write whenever the serial handle is absent or `esp32_connected` is
false; when the handle is present and the flag is true it first writes the
command followed by a newline, reporting `ok` on a successful write, and a
raised write error is caught, logged, and reported as `rejected`. -/
theorem send_esp32_command_spec (st : MonitorState) (wr : Except String Unit) (cmd : String) :
    ((st.esp32_serial.isSome && st.esp32_connected) = false →
      (send_esp32_command st wr cmd).2.2 = SendOutcome.rejected ∧
      writesSerial (send_esp32_command st wr cmd).2.1 = false) ∧
    ((st.esp32_serial.isSome && st.esp32_connected) = true → wr = Except.ok () →
      (send_esp32_command st wr cmd).2.2 = SendOutcome.ok ∧
      (send_esp32_command st wr cmd).2.1.head? =
        some (Effect.serialWrite (cmd ++ "\n"))) ∧
    (∀ e, (st.esp32_serial.isSome && st.esp32_connected) = true →
      wr = Except.error e →
      (send_esp32_command st wr cmd).2.2 = SendOutcome.rejected ∧
      (send_esp32_command st wr cmd).2.1.head? =
        some (Effect.serialWrite (cmd ++ "\n")) ∧
      Effect.logError ("Failed to send command to ESP32: " ++ e) ∈
        (send_esp32_command st wr cmd).2.1) := by
  refine ⟨fun h => ?_, fun h hw => ?_, fun e h hw => ?_⟩
  · simp [send_esp32_command, h, writesSerial]
  · subst hw
    simp [send_esp32_command, h]
  · subst hw
    simp [send_esp32_command, h]

/-- Claim C1 witness. -/
theorem send_esp32_command_spec_witness :
    (send_esp32_command
        { initialState with esp32_serial := some (), esp32_connected := true }
        (Except.ok ()) "POWER_TEST").2.2 = SendOutcome.ok :=
  ((send_esp32_command_spec
      { initialState with esp32_serial := some (), esp32_connected := true }
      (Except.ok ()) "POWER_TEST").2.1 rfl rfl).1

/-- Claim C2 theorem: when either status flag is false, `test_power_connection`
performs no serial write, returns `false`, leaves the state unchanged, and its
trace is exactly the report naming the missing peripheral (the link check
comes first). -/
theorem test_power_connection_no_write (st : MonitorState) (wr pr : Except String Unit)
    (h : st.crazyflie_connected = false ∨ st.esp32_connected = false) :
    writesSerial (test_power_connection st wr pr).2.1 = false ∧
    (test_power_connection st wr pr).2.2 = false ∧
    (test_power_connection st wr pr).1 = st ∧
    (st.crazyflie_connected = false →
      (test_power_connection st wr pr).2.1 =
        [Effect.logInfo "Testing power connection...",
         Effect.logError "Cannot test power connection - Crazyflie not connected"]) ∧
    (st.crazyflie_connected = true →
      (test_power_connection st wr pr).2.1 =
        [Effect.logInfo "Testing power connection...",
         Effect.logError "Cannot test power connection - ESP32 not connected"]) := by
  cases hcf : st.crazyflie_connected with
  | false => simp [test_power_connection, hcf, writesSerial]
  | true =>
      have hesp : st.esp32_connected = false := by
        rcases h with h1 | h2
        · rw [hcf] at h1
          exact absurd h1 (by simp)
        · exact h2
      simp [test_power_connection, hcf, hesp, writesSerial]

/-- Claim C2 witness. -/
theorem test_power_connection_no_write_witness :
    writesSerial (test_power_connection initialState (Except.ok ()) (Except.ok ())).2.1 =
      false :=
  (test_power_connection_no_write initialState (Except.ok ()) (Except.ok ())
    (Or.inl rfl)).1

/-- Claim C5 theorem: when the port opens and the probe write and read both
complete, `connect_to_esp32` sets `esp32_connected` and returns `true` for
every reply string; an empty reply merely makes the trace end in the
no-response warning instead of the response log. -/
theorem connect_to_esp32_permissive (st : MonitorState) (r : String) :
    (connect_to_esp32 st ⟨Except.ok (), Except.ok (), Except.ok r⟩).1.esp32_connected =
      true ∧
    (connect_to_esp32 st ⟨Except.ok (), Except.ok (), Except.ok r⟩).2.2 = true ∧
    (r = "" →
      (connect_to_esp32 st ⟨Except.ok (), Except.ok (), Except.ok r⟩).2.1 =
        [Effect.serialWrite "PING\n", Effect.serialRead,
         Effect.logWarning "ESP32 connected but no response to ping"]) := by
  by_cases hr : r = "" <;> simp [connect_to_esp32, hr]

/-- Claim C5 witness. -/
theorem connect_to_esp32_permissive_witness :
    (connect_to_esp32 initialState
        ⟨Except.ok (), Except.ok (), Except.ok ""⟩).1.esp32_connected = true ∧
    (connect_to_esp32 initialState
        ⟨Except.ok (), Except.ok (), Except.ok ""⟩).2.1 =
      [Effect.serialWrite "PING\n", Effect.serialRead,
       Effect.logWarning "ESP32 connected but no response to ping"] :=
  ⟨(connect_to_esp32_permissive initialState "").1,
   (connect_to_esp32_permissive initialState "").2.2 rfl⟩

/-- Claim C10 theorem: if the port opens but the probe write or read raises,
`connect_to_esp32` returns `false` with `esp32_connected` still false while
the open handle stays stored, and a monitor iteration on the resulting state
with bytes waiting still reads from the port — its gate is the handle, not
the status flag. -/
theorem connect_to_esp32_probe_failure (st : MonitorState) (env : SerialProbeEnv)
    (hflag : st.esp32_connected = false)
    (hopen : env.openResult = Except.ok ())
    (hfail : (∃ e, env.writeResult = Except.error e) ∨
      (env.writeResult = Except.ok () ∧ ∃ e, env.readResult = Except.error e)) :
    (connect_to_esp32 st env).2.2 = false ∧
    (connect_to_esp32 st env).1.esp32_connected = false ∧
    (connect_to_esp32 st env).1.esp32_serial = some () ∧
    (∀ rr, readsSerial (monitor_connections_step (connect_to_esp32 st env).1 true rr) =
      true) := by
  obtain ⟨o, w, rres⟩ := env
  cases hopen
  rcases hfail with ⟨e, hw⟩ | ⟨hw, e, hr⟩
  · cases hw
    exact ⟨rfl, hflag, rfl, fun rr => monitor_step_reads_when_handle _ rfl rr⟩
  · cases hw
    cases hr
    exact ⟨rfl, hflag, rfl, fun rr => monitor_step_reads_when_handle _ rfl rr⟩

/-- Claim C10 witness. -/
theorem connect_to_esp32_probe_failure_witness :
    (connect_to_esp32 initialState
        ⟨Except.ok (), Except.error "write timeout", Except.ok ""⟩).2.2 = false ∧
    (connect_to_esp32 initialState
        ⟨Except.ok (), Except.error "write timeout", Except.ok ""⟩).1.esp32_serial =
      some () :=
  ⟨(connect_to_esp32_probe_failure initialState
      ⟨Except.ok (), Except.error "write timeout", Except.ok ""⟩ rfl rfl
      (Or.inl ⟨"write timeout", rfl⟩)).1,
   (connect_to_esp32_probe_failure initialState
      ⟨Except.ok (), Except.error "write timeout", Except.ok ""⟩ rfl rfl
      (Or.inl ⟨"write timeout", rfl⟩)).2.2.1⟩

/-- Claim C4 theorem: both discovery calls return the empty sequence on every
underlying error (the `except` branches), and a device is in the serial scan
result exactly when some enumerated port has that device name and a lowered
description containing one of the fixed keywords; membership in the keyword
filter depends only on the case-folded description. -/
theorem discovery_spec :
    (∀ e, initialize_crazyflie_drivers (Except.error e) = []) ∧
    (∀ e, scan_esp32_ports (Except.error e) = []) ∧
    (∀ ports d, d ∈ scan_esp32_ports (Except.ok ports) ↔
      ∃ p, p ∈ ports ∧ p.device = d ∧
        (esp32Keywords.any (fun k => strContains (strToLower p.description) k)) = true) ∧
    (∀ p q : Port, strToLower p.description = strToLower q.description →
      (esp32Keywords.any (fun k => strContains (strToLower p.description) k)) =
      (esp32Keywords.any (fun k => strContains (strToLower q.description) k))) := by
  refine ⟨fun e => rfl, fun e => rfl, fun ports d => ?_, fun p q h => by rw [h]⟩
  simp only [scan_esp32_ports, List.mem_map, List.mem_filter]
  constructor
  · rintro ⟨p, ⟨hp, hk⟩, hd⟩
    exact ⟨p, hp, hd, hk⟩
  · rintro ⟨p, hp, hd, hk⟩
    exact ⟨p, ⟨hp, hk⟩, hd⟩

/-- Claim C4 witness. -/
theorem discovery_spec_witness :
    "COM3" ∈ scan_esp32_ports (Except.ok [⟨"COM3", "USB-SERIAL CH340 (COM3)"⟩]) ∧
    (esp32Keywords.any (fun k =>
        strContains (strToLower (Port.mk "a" "CH340 Serial").description) k)) =
      (esp32Keywords.any (fun k =>
        strContains (strToLower (Port.mk "b" "ch340 serial").description) k)) :=
  ⟨(discovery_spec.2.2.1 [⟨"COM3", "USB-SERIAL CH340 (COM3)"⟩] "COM3").mpr
      ⟨⟨"COM3", "USB-SERIAL CH340 (COM3)"⟩, by simp, rfl, by decide⟩,
   discovery_spec.2.2.2 ⟨"a", "CH340 Serial"⟩ ⟨"b", "ch340 serial"⟩ (by decide)⟩

/-- Claim C6 counterexample: during the initial connection `self.crazyflie`
is still null when the connected callback fires (the handle is assigned only
after the wait loop observes the flag), and then the handler sets the flag
but schedules no read-back at all, not the claimed two. -/
theorem crazyflie_connected_cb_counterexample :
    countParamReadbacks
      (crazyflie_connected_cb initialState (Except.ok ()) (Except.ok ())).2 = 0 ∧
    (crazyflie_connected_cb initialState
      (Except.ok ()) (Except.ok ())).1.crazyflie_connected = true :=
  ⟨rfl, rfl⟩

/-- Claim C6 theorem (amended): every connected notification sets
`crazyflie_connected` to true; the two read-backs (firmware revision, battery
voltage) are scheduled only when the link handle is already stored — with a
null handle nothing is scheduled — and a failure of either scheduling call is
caught and turned into a warning log line, never propagated. -/
theorem crazyflie_connected_cb_spec (st : MonitorState) (fw vb : Except String Unit) :
    (crazyflie_connected_cb st fw vb).1.crazyflie_connected = true ∧
    (st.crazyflie = none → countParamReadbacks (crazyflie_connected_cb st fw vb).2 = 0) ∧
    (st.crazyflie = some () → fw = Except.ok () → vb = Except.ok () →
      countParamReadbacks (crazyflie_connected_cb st fw vb).2 = 2) ∧
    (∀ e, st.crazyflie = some () → fw = Except.error e →
      (crazyflie_connected_cb st fw vb).2 =
        [Effect.logInfo "Crazyflie connected",
         Effect.logWarning ("Could not read Crazyflie parameters: " ++ e)]) ∧
    (∀ e, st.crazyflie = some () → fw = Except.ok () → vb = Except.error e →
      (crazyflie_connected_cb st fw vb).2 =
        [Effect.logInfo "Crazyflie connected",
         Effect.paramReadback "firmware.revision0",
         Effect.logWarning ("Could not read Crazyflie parameters: " ++ e)]) := by
  obtain ⟨cf, es, c1, c2, c3, mon⟩ := st
  cases cf with
  | none =>
      cases fw <;> cases vb <;>
        simp [crazyflie_connected_cb, countParamReadbacks]
  | some u =>
      cases u
      cases fw <;> cases vb <;>
        simp [crazyflie_connected_cb, countParamReadbacks]

/-- Claim C6 witness. -/
theorem crazyflie_connected_cb_spec_witness :
    countParamReadbacks
      (crazyflie_connected_cb { initialState with crazyflie := some () }
        (Except.ok ()) (Except.ok ())).2 = 2 :=
  (crazyflie_connected_cb_spec { initialState with crazyflie := some () }
      (Except.ok ()) (Except.ok ())).2.2.1 rfl rfl rfl

/-- Claim C7 counterexample: with both handles stored and both close calls
raising, `cleanup` still attempts the link close first and the serial close
second, but its bare `except: pass` handlers log nothing — the trace carries
zero error- or warning-level lines, against the claimed logging. -/
theorem cleanup_counterexample :
    closeAttempts (cleanup
        { initialState with crazyflie := some (), esp32_serial := some () }
        (Except.error "link close failed") (Except.error "serial close failed")).2 =
      [Effect.closeLinkAttempt, Effect.closeSerialAttempt] ∧
    errorLogCount (cleanup
        { initialState with crazyflie := some (), esp32_serial := some () }
        (Except.error "link close failed") (Except.error "serial close failed")).2 = 0 :=
  ⟨rfl, rfl⟩

/-- Claim C7 theorem (amended): `cleanup` clears `monitoring`, attempts to
close the link handle first and the serial handle second (each exactly when
it is stored), for every combination of close outcomes — so one close's
failure never prevents the other's attempt — swallows close errors without
logging them, and, being a total function of its inputs, never raises. -/
theorem cleanup_spec (st : MonitorState) (r1 r2 : Except String Unit) :
    closeAttempts (cleanup st r1 r2).2 =
      (if st.crazyflie.isSome then [Effect.closeLinkAttempt] else []) ++
      (if st.esp32_serial.isSome then [Effect.closeSerialAttempt] else []) ∧
    errorLogCount (cleanup st r1 r2).2 = 0 ∧
    (cleanup st r1 r2).1 = { st with monitoring := false } := by
  obtain ⟨cf, es, c1, c2, c3, mon⟩ := st
  cases cf <;> cases es <;> cases r1 <;> cases r2 <;>
    simp [cleanup, closeAttempts, errorLogCount]

/-- Claim C8 theorem: when link discovery yields no endpoints, `main` reports
the failure and halts — no serial connect attempt, no monitoring loop, and
the interactive command surface is never entered. -/
theorem main_no_link_halts (env : MainEnv)
    (h : initialize_crazyflie_drivers env.scanLink = []) :
    MainEvent.reportedNoLink ∈ main_run env ∧
    MainEvent.attemptedSerialConnect ∉ main_run env ∧
    MainEvent.startedMonitorLoop ∉ main_run env ∧
    MainEvent.enteredCommandLoop ∉ main_run env := by
  simp [main_run, h]

/-- Claim C8 witness. -/
theorem main_no_link_halts_witness :
    MainEvent.reportedNoLink ∈ main_run
      { scanLink := Except.error "no radio dongle", comports := Except.ok [],
        linkOpen := Except.ok (), arrival := none,
        probe := ⟨Except.ok (), Except.ok (), Except.ok ""⟩ } :=
  (main_no_link_halts
    { scanLink := Except.error "no radio dongle", comports := Except.ok [],
      linkOpen := Except.ok (), arrival := none,
      probe := ⟨Except.ok (), Except.ok (), Except.ok ""⟩ } rfl).1

/-- Helper: the connected callback always writes `true` into the flag,
whatever the handle or the read-back outcomes. -/
theorem connected_cb_sets_flag (st : MonitorState) (fw vb : Except String Unit) :
    (crazyflie_connected_cb st fw vb).1.crazyflie_connected = true := by
  cases hc : st.crazyflie <;> cases fw <;> cases vb <;>
    simp [crazyflie_connected_cb, hc]

/-- Helper: with the flag initially false, its value at tick `t` is exactly
whether the connected notification has arrived by `t`. -/
theorem flagDuring_some (st : MonitorState) (hst : st.crazyflie_connected = false)
    (a t : Nat) : flagDuring st (some a) t = decide (a ≤ t) := by
  by_cases h : a ≤ t
  · simp [flagDuring, h, connected_cb_sets_flag]
  · simp [flagDuring, h, hst]

/-- Helper: the flag observed at the poll loop's exit tick is true exactly
when the notification arrives within the remaining budget. -/
theorem pollFrom_exit_flag (st : MonitorState) (hst : st.crazyflie_connected = false)
    (a : Nat) : ∀ fuel t,
    (flagDuring st (some a) (pollFrom st (some a) t fuel) = true ↔ a ≤ t + fuel) := by
  intro fuel
  induction fuel with
  | zero =>
      intro t
      rw [pollFrom, flagDuring_some st hst]
      simp
  | succ n ih =>
      intro t
      by_cases h : flagDuring st (some a) t = true
      · have ha : a ≤ t := by
          rw [flagDuring_some st hst] at h
          exact of_decide_eq_true h
        have hp : pollFrom st (some a) t (n + 1) = t := by
          simp [pollFrom, h]
        rw [hp, flagDuring_some st hst]
        simp only [decide_eq_true_eq]
        omega
      · have hp : pollFrom st (some a) t (n + 1) = pollFrom st (some a) (t + 1) n := by
          simp [pollFrom, h]
        rw [hp, ih (t + 1)]
        omega

/-- Claim C3 theorem: with the flag initially false and the open call not
raising, `connect_to_crazyflie` — polling in 100 ms ticks against the 10 s
budget of `connectTimeoutTicks` polls — returns success exactly when the
connected notification arrives within the budget; when it returns failure
the flag in the returned state is still false; and whenever the notification
does arrive, even at a tick past the timeout, the flag is true from that tick
on, because the handler sets it unconditionally. -/
theorem connect_to_crazyflie_spec (st : MonitorState) (arrival : Option Nat)
    (hst : st.crazyflie_connected = false) :
    ((connect_to_crazyflie st (Except.ok ()) arrival).2 = true ↔
      ∃ a, arrival = some a ∧ a ≤ connectTimeoutTicks) ∧
    ((connect_to_crazyflie st (Except.ok ()) arrival).2 = false →
      (connect_to_crazyflie st (Except.ok ()) arrival).1.crazyflie_connected = false) ∧
    (∀ a t, arrival = some a → a ≤ t → flagDuring st arrival t = true) := by
  cases arrival with
  | none =>
      have hres : connect_to_crazyflie st (Except.ok ()) none = (st, false) := by
        simp [connect_to_crazyflie, flagDuring, hst]
      refine ⟨?_, ?_, ?_⟩
      · rw [hres]
        constructor
        · intro h
          exact absurd h (by simp)
        · rintro ⟨a, ha, _⟩
          exact Option.noConfusion ha
      · intro _
        rw [hres]
        exact hst
      · intro a t ha
        exact absurd ha (by simp)
  | some a =>
      have hflag : flagDuring st (some a) (pollFrom st (some a) 0 connectTimeoutTicks) =
          true ↔ a ≤ connectTimeoutTicks := by
        simpa using pollFrom_exit_flag st hst a connectTimeoutTicks 0
      refine ⟨?_, ?_, ?_⟩
      · by_cases hc : a ≤ connectTimeoutTicks
        · have hf := hflag.mpr hc
          simp only [connect_to_crazyflie, hf, if_true]
          constructor
          · intro _
            exact ⟨a, rfl, hc⟩
          · intro _
            trivial
        · have hf : flagDuring st (some a) (pollFrom st (some a) 0 connectTimeoutTicks) =
              false := by
            cases hx : flagDuring st (some a) (pollFrom st (some a) 0 connectTimeoutTicks)
            · rfl
            · exact absurd (hflag.mp hx) hc
          simp only [connect_to_crazyflie, hf]
          constructor
          · intro h
            exact absurd h (by simp)
          · rintro ⟨b, hb, hble⟩
            injection hb with h1
            exact absurd (h1 ▸ hble) hc
      · by_cases hc : a ≤ connectTimeoutTicks
        · have hf := hflag.mpr hc
          simp only [connect_to_crazyflie, hf]
          intro h
          exact absurd h (by simp)
        · have hf : flagDuring st (some a) (pollFrom st (some a) 0 connectTimeoutTicks) =
              false := by
            cases hx : flagDuring st (some a) (pollFrom st (some a) 0 connectTimeoutTicks)
            · rfl
            · exact absurd (hflag.mp hx) hc
          simp only [connect_to_crazyflie, hf]
          intro _
          exact hst
      · intro b t hb hle
        injection hb with h1
        subst h1
        rw [flagDuring_some st hst]
        exact decide_eq_true hle

/-- Claim C3 witness. -/
theorem connect_to_crazyflie_spec_witness :
    (connect_to_crazyflie initialState (Except.ok ()) (some 5)).2 = true :=
  (connect_to_crazyflie_spec initialState (some 5) rfl).1.mpr ⟨5, rfl, by decide⟩
